import Mathlib

/-!
# Rancher docker-machine driver: lifecycle and configuration

A shallow embedding of `rancher/rancher.go` (the driver registered by `main.go`)
and of the legacy `rancher.go` kept at the repository root.

Modelling conventions:

* A Go error value is identified with its message (`Err`); `none` is the nil error.
* A Go result `(*T, error)` is the pair `GoRes T`: both halves may be nil.
* The driver is a pointer receiver, so every method returns the updated `Driver`.
* The Rancher service is a parameter `Remote`.  Its answers may depend on the
  requests already sent through a handle (the history, a `List Call`), on the
  handle and on the arguments.  Every method appends the requests it sends.
* `Run.panic` is a nil dereference; `Run.pending` is the poll loop of `Create`
  still waiting when the fuel of the model ran out.
-/

namespace Rancher

/-! ## Collaborators: libmachine and go-rancher types -/

/-- An error value, identified with its message. -/
abbrev Err := String

/-- A Go result pair `(*T, error)`. -/
abbrev GoRes (α : Type) := Option α × Option Err

/-- Outcome of running a driver method. -/
inductive Run (α : Type) where
  | done (a : α)
  | panic
  | pending
deriving DecidableEq

namespace state

/-- The canonical machine states of `libmachine/state`. -/
inductive State where
  | None
  | Running
  | Paused
  | Saved
  | Stopped
  | Stopping
  | Starting
  | Error
  | Timeout
deriving DecidableEq, Repr

end state

namespace drivers

/-- The libmachine error `drivers.ErrHostIsNotRunning`. -/
def ErrHostIsNotRunning : Err := "Host is not running"

/-- The option values handed to `SetConfigFromFlags` (`drivers.DriverOptions`). -/
structure DriverOptions where
  StringOpt : String → String
  IntOpt : String → Int

end drivers

/-- Options a client handle is built from (`rancher.ClientOpts`). -/
structure ClientOpts where
  Url : String
  AccessKey : String
  SecretKey : String
deriving DecidableEq, Repr

/-- A client handle (`rancher.RancherClient`); it remembers its options. -/
structure RancherClient where
  Opts : ClientOpts
deriving DecidableEq, Repr

/-- The fields of `rancher.VirtualMachine` the driver reads or writes. -/
structure VirtualMachine where
  Id : String := ""
  Name : String := ""
  ImageUuid : String := ""
  MemoryMb : Int := 0
  Vcpu : Int := 0
  Userdata : String := ""
  State : String := ""
  PrimaryIpAddress : String := ""
deriving DecidableEq, Repr

/-- The fields of `rancher.Project` the driver reads; `Links` is a Go map. -/
structure Project where
  Id : String := ""
  Name : String := ""
  Links : List (String × String) := []
deriving DecidableEq, Repr

/-- Reading a Go `map[string]string`: the zero value when the key is absent. -/
def mapGet (m : List (String × String)) (k : String) : String :=
  (m.lookup k).getD ""

/-- List options (`rancher.ListOpts`): the filter map, in source order. -/
structure ListOpts where
  Filters : List (String × String)
deriving DecidableEq, Repr

/-- Stop options (`rancher.InstanceStop`); `{}` is its zero value. -/
structure InstanceStop where
  Remove : Bool := false
  Timeout : Int := 0
deriving DecidableEq, Repr

/-- A request sent through a client handle; a VM argument is a pointer and may be nil. -/
inductive Call where
  | ProjectById (id : String)
  | ProjectList (opts : ListOpts)
  | VirtualMachineCreate (req : VirtualMachine)
  | VirtualMachineById (id : String)
  | ActionStart (m : Option VirtualMachine)
  | ActionStop (m : Option VirtualMachine) (opts : InstanceStop)
  | ActionRestart (m : Option VirtualMachine)
  | Delete (m : Option VirtualMachine)
deriving DecidableEq, Repr

/-- The Rancher service behind go-rancher. -/
structure Remote where
  NewRancherClient : ClientOpts → GoRes RancherClient
  ProjectById : List Call → RancherClient → String → GoRes Project
  ProjectList : List Call → RancherClient → ListOpts → GoRes (List Project)
  VirtualMachineCreate : List Call → RancherClient → VirtualMachine → GoRes VirtualMachine
  VirtualMachineById : List Call → RancherClient → String → GoRes VirtualMachine
  ActionStart : List Call → RancherClient → Option VirtualMachine → GoRes VirtualMachine
  ActionStop : List Call → RancherClient → Option VirtualMachine → InstanceStop →
    GoRes VirtualMachine
  ActionRestart : List Call → RancherClient → Option VirtualMachine → GoRes VirtualMachine
  Delete : List Call → RancherClient → Option VirtualMachine → Option Err

/-- The local machine: the path `BaseDriver.GetSSHKeyPath` answers, key generation
(libmachine `ssh`) and file reads (`ioutil`). -/
structure Host where
  SSHKeyPath : String
  GenerateSSHKey : String → Option Err
  ReadFile : String → String × Option Err

namespace mcnflag

/-- A flag declaration: `mcnflag.StringFlag` or `mcnflag.IntFlag`. -/
inductive Flag where
  | StringFlag (EnvVar Name Usage Value : String)
  | IntFlag (EnvVar Name Usage : String) (Value : Int)
deriving DecidableEq, Repr

end mcnflag

/-! ## The driver -/

/-- The `Driver` struct; `MachineName` and `StorePath` come from `BaseDriver`. -/
structure Driver where
  MachineName : String := ""
  StorePath : String := ""
  Url : String := ""
  AccessKey : String := ""
  SecretKey : String := ""
  OsImage : String := ""
  OsUser : String := ""
  MemoryMb : Int := 0
  Vcpu : Int := 0
  client : Option RancherClient := none
  ProjectName : String := ""
  ProjectId : String := ""
  MachineId : String := ""
  IPAddress : String := ""
deriving DecidableEq, Repr

def defaultOsImage : String := "rancher/vm-ubuntu"
def defaultOsUser : String := "ubuntu"
def defaultMemoryMb : Int := 1024
def defaultVcpu : Int := 2

/-- The method `getClient`: the cached handle, built on first use; nil when construction fails. -/
def getClient (R : Remote) (d : Driver) : Option RancherClient × Driver :=
  match d.client with
  | some c => (some c, d)
  | none =>
    match R.NewRancherClient ⟨d.Url, d.AccessKey, d.SecretKey⟩ with
    | (_, some _) => (none, d)
    | (client, none) => (client, { d with client := client })

/-- The method `getMachine`: fetch the VM by the cached id. -/
def getMachine (R : Remote) (d : Driver) (h : List Call) :
    Run (GoRes VirtualMachine × Driver × List Call) :=
  match getClient R d with
  | (none, _) => .panic
  | (some c, d1) =>
    .done (R.VirtualMachineById h c d1.MachineId, d1, h ++ [Call.VirtualMachineById d1.MachineId])

/-- The method `GetState`. -/
def GetState (R : Remote) (d : Driver) (h : List Call) :
    Run ((state.State × Option Err) × Driver × List Call) :=
  match getMachine R d h with
  | .panic => .panic
  | .pending => .pending
  | .done ((_, some err), d1, h1) => .done ((state.State.Error, some err), d1, h1)
  | .done ((none, none), _, _) => .panic
  | .done ((some machine, none), d1, h1) =>
    if machine.State ∈ ["creating", "migrating", "requested", "restarting", "restoring",
        "starting"] then
      .done ((state.State.Starting, none), d1, h1)
    else if machine.State ∈ ["error", "erroring", "purged", "purging", "removed",
        "removing"] then
      .done ((state.State.Error, none), d1, h1)
    else if machine.State ∈ ["running", "updating-running"] then
      .done ((state.State.Running, none), d1, h1)
    else if machine.State ∈ ["stopped", "updating-stopped"] then
      .done ((state.State.Stopped, none), d1, h1)
    else if machine.State ∈ ["stopping"] then
      .done ((state.State.Stopping, none), d1, h1)
    else
      .done ((state.State.None, none), d1, h1)

/-- The method `GetIP`. -/
def GetIP (d : Driver) : (String × Option Err) × Driver :=
  if d.IPAddress = "" ∨ d.IPAddress = "0" then
    (("", some "IP address is not set"), d)
  else
    ((d.IPAddress, none), d)

/-- The method `GetURL`. -/
def GetURL (R : Remote) (d : Driver) (h : List Call) :
    Run ((String × Option Err) × Driver × List Call) :=
  match GetState R d h with
  | .panic => .panic
  | .pending => .pending
  | .done ((_, some err), d1, h1) => .done (("", some err), d1, h1)
  | .done ((s, none), d1, h1) =>
    if s ≠ state.State.Running then
      .done (("", some drivers.ErrHostIsNotRunning), d1, h1)
    else
      match GetIP d1 with
      | ((_, some err), d2) => .done (("", some err), d2, h1)
      | ((ip, none), d2) => .done (("tcp://" ++ ip ++ ":2376", none), d2, h1)

/-- The method `GetCreateFlags`: the flag table. -/
def GetCreateFlags : List mcnflag.Flag :=
  [ .StringFlag "RANCHER_URL" "rancher-url" "Rancher API URL" "",
    .StringFlag "RANCHER_ACCESS_KEY" "rancher-access-key" "Rancher Access Key" "",
    .StringFlag "RANCHER_SECRET_KEY" "rancher-secret-key" "Rancher Secret Key" "",
    .StringFlag "RANCHER_ENVIRONMENT_NAME" "rancher-project-name"
      "Rancher Environment Name (Name or ID are required if API key has access to more than one Environment"
      "",
    .StringFlag "RANCHER_ENVIRONMENT_ID" "rancher-project-id"
      "Rancher Environment ID (Name or ID are required if API key has access to more than one Environment)"
      "",
    .StringFlag "RANCHER_OS_IMAGE" "rancher-os-image"
      ("Rancher OS Image.  Default: " ++ defaultOsImage) defaultOsImage,
    .StringFlag "RANCHER_OS_USER" "rancher-os-user"
      ("Rancher OS User.  Default: " ++ defaultOsUser) defaultOsUser,
    .IntFlag "RANCHER_MEMORY_MB" "rancher-memory-mb"
      ("Memory in MiB. Default: " ++ toString defaultMemoryMb) defaultMemoryMb,
    .IntFlag "RANCHER_VCPU" "rancher-vcpu"
      ("Number of virtual CPUs. Default: " ++ toString defaultVcpu) defaultVcpu ]

/-- The constructor `NewDriver`. -/
def NewDriver (hostName storePath : String) : Driver :=
  { OsImage := defaultOsImage, MemoryMb := defaultMemoryMb, Vcpu := defaultVcpu,
    MachineName := hostName, StorePath := storePath }

/-- The method `DriverName`. -/
def DriverName : String := "rancher"

/-- The method `SetConfigFromFlags` of the registered driver (`rancher/rancher.go`). -/
def SetConfigFromFlags (d : Driver) (flags : drivers.DriverOptions) : Option Err × Driver :=
  let d1 : Driver :=
    { d with
      Url := flags.StringOpt "rancher-url"
      AccessKey := flags.StringOpt "rancher-access-key"
      SecretKey := flags.StringOpt "rancher-secret-key"
      OsImage := flags.StringOpt "rancher-os-image"
      OsUser := flags.StringOpt "rancher-os-user"
      MemoryMb := flags.IntOpt "rancher-memory-mb"
      Vcpu := flags.IntOpt "rancher-vcpu"
      ProjectName := flags.StringOpt "rancher-project-name"
      ProjectId := flags.StringOpt "rancher-project-id" }
  if d1.Url = "" then
    (some "Rancher driver requires the --rancher-url option", d1)
  else
    (none, d1)

/-- The method `selectProject`. -/
def selectProject (R : Remote) (d : Driver) (h : List Call) :
    Run (GoRes Project × Driver × List Call) :=
  match getClient R d with
  | (none, _) => .panic
  | (some client, d1) =>
    if d1.ProjectId ≠ "" then
      .done (R.ProjectById h client d1.ProjectId, d1, h ++ [Call.ProjectById d1.ProjectId])
    else if d1.ProjectName ≠ "" then
      let opts : ListOpts :=
        ⟨[("name", d1.ProjectName), ("state_ne", "removed"), ("limit", "2")]⟩
      match R.ProjectList h client opts with
      | (_, some err) => .done ((none, some err), d1, h ++ [Call.ProjectList opts])
      | (none, none) => .panic
      | (some projects, none) =>
        if projects.length > 1 then
          .done ((none, some ("There is more than one Environment named \x27" ++ d1.ProjectName
            ++ "\x27, use --rancher-environment-id to choose one")), d1,
            h ++ [Call.ProjectList opts])
        else if projects.length = 0 then
          .done ((none, some ("No Environment named \x27" ++ d1.ProjectName
            ++ "\x27 was found, check URL and API key")), d1, h ++ [Call.ProjectList opts])
        else
          .done ((projects.head?, none), d1, h ++ [Call.ProjectList opts])
    else
      let opts : ListOpts := ⟨[("state_ne", "removed"), ("limit", "2")]⟩
      match R.ProjectList h client opts with
      | (_, some err) => .done ((none, some err), d1, h ++ [Call.ProjectList opts])
      | (none, none) => .panic
      | (some projects, none) =>
        if projects.length > 1 then
          .done ((none, some
            "The supplied API Key has access to more than one Environment, use --rancher-environment-id to choose one"),
            d1, h ++ [Call.ProjectList opts])
        else if projects.length = 0 then
          .done ((none, some "No Environments found, check URL and API key"), d1,
            h ++ [Call.ProjectList opts])
        else
          .done ((projects.head?, none), d1, h ++ [Call.ProjectList opts])

/-- The method `PreCreateCheck`. -/
def PreCreateCheck (R : Remote) (d : Driver) (h : List Call) :
    Run (Option Err × Driver × List Call) :=
  match selectProject R d h with
  | .panic => .panic
  | .pending => .pending
  | .done ((_, some err), d1, h1) => .done (some err, d1, h1)
  | .done ((none, none), _, _) => .panic
  | .done ((some project, none), d1, h1) =>
    .done (none, { d1 with client := none, Url := mapGet project.Links "self" }, h1)

/-- Go `strings.TrimRight`: drop every trailing character that is in the cutset. -/
def TrimRight (s cutset : String) : String :=
  ⟨(s.data.reverse.dropWhile (fun c => decide (c ∈ cutset.data))).reverse⟩

/-- The method `publicSSHKeyPath`. -/
def publicSSHKeyPath (H : Host) : String := H.SSHKeyPath ++ ".pub"

/-- The method `createSSHKey`. -/
def createSSHKey (H : Host) : String × Option Err :=
  match H.GenerateSSHKey H.SSHKeyPath with
  | some err => ("", some err)
  | none =>
    match H.ReadFile (publicSSHKeyPath H) with
    | (_, some err) => ("", some err)
    | (publicKey, none) => (TrimRight publicKey "\r\n\t ", none)

/-- The poll loop of `Create`; each unit of fuel is one fetch (the sleep is not modelled). -/
def CreateLoop (R : Remote) : Nat → Driver → List Call → Run (Option Err × Driver × List Call)
  | 0, _, _ => .pending
  | fuel + 1, d, h =>
    match getMachine R d h with
    | .panic => .panic
    | .pending => .pending
    | .done ((_, some err), d1, h1) => .done (some err, d1, h1)
    | .done ((none, none), _, _) => .panic
    | .done ((some machine, none), d1, h1) =>
      if machine.PrimaryIpAddress ≠ "" ∧ machine.State = "running" then
        .done (none, { d1 with IPAddress := machine.PrimaryIpAddress }, h1)
      else
        CreateLoop R fuel { d1 with IPAddress := machine.PrimaryIpAddress } h1

/-- The user data `Create` builds around the public key (a Go raw string literal). -/
def userdata (key : String) : String :=
  "#cloud-config\n\nssh_authorized_keys:\n\t- \"" ++ key ++ "\""

/-- The `rancher.VirtualMachine` literal `Create` submits. -/
def createRequest (d : Driver) (key : String) : VirtualMachine :=
  { Name := d.MachineName
    ImageUuid := "docker:" ++ d.OsImage
    MemoryMb := d.MemoryMb
    Vcpu := d.Vcpu
    Userdata := userdata key }

/-- The method `Create`; `fuel` bounds the number of polls. -/
def Create (fuel : Nat) (R : Remote) (H : Host) (d : Driver) (h : List Call) :
    Run (Option Err × Driver × List Call) :=
  match createSSHKey H with
  | (_, some err) => .done (some err, d, h)
  | (key, none) =>
    match getClient R d with
    | (none, _) => .panic
    | (some c, d1) =>
      match R.VirtualMachineCreate h c (createRequest d1 key) with
      | (_, some err) =>
        .done (some err, d1, h ++ [Call.VirtualMachineCreate (createRequest d1 key)])
      | (none, none) => .panic
      | (some machine, none) =>
        CreateLoop R fuel { d1 with MachineId := machine.Id }
          (h ++ [Call.VirtualMachineCreate (createRequest d1 key)])

/-- The history after `j` fetches of machine `m` that follow the history `h0`. -/
def pollHistory (h0 : List Call) (m : String) (j : Nat) : List Call :=
  h0 ++ List.replicate j (Call.VirtualMachineById m)

/-- A fetched VM is ready when its IP is non-empty and its status is the literal running. -/
def ready (vm : VirtualMachine) : Prop :=
  vm.PrimaryIpAddress ≠ "" ∧ vm.State = "running"

instance (vm : VirtualMachine) : Decidable (ready vm) := by
  unfold ready
  infer_instance

/-- The method `GetSSHHostname`. -/
def GetSSHHostname (d : Driver) : (String × Option Err) × Driver := GetIP d

/-- The method `GetSSHUsername`. -/
def GetSSHUsername (d : Driver) : String × Driver :=
  if d.OsUser = "" then (defaultOsUser, { d with OsUser := defaultOsUser }) else (d.OsUser, d)

/-- The method `Start`. -/
def Start (R : Remote) (d : Driver) (h : List Call) : Run (Option Err × Driver × List Call) :=
  match getMachine R d h with
  | .panic => .panic
  | .pending => .pending
  | .done ((_, some err), d1, h1) => .done (some err, d1, h1)
  | .done ((machine, none), d1, h1) =>
    match getClient R d1 with
    | (none, _) => .panic
    | (some c, d2) => .done ((R.ActionStart h1 c machine).2, d2, h1 ++ [Call.ActionStart machine])

/-- The method `Stop`. -/
def Stop (R : Remote) (d : Driver) (h : List Call) : Run (Option Err × Driver × List Call) :=
  match getMachine R d h with
  | .panic => .panic
  | .pending => .pending
  | .done ((_, some err), d1, h1) => .done (some err, d1, h1)
  | .done ((machine, none), d1, h1) =>
    match getClient R d1 with
    | (none, _) => .panic
    | (some c, d2) =>
      .done ((R.ActionStop h1 c machine {}).2, d2, h1 ++ [Call.ActionStop machine {}])

/-- The method `Remove`. -/
def Remove (R : Remote) (d : Driver) (h : List Call) : Run (Option Err × Driver × List Call) :=
  match getMachine R d h with
  | .panic => .panic
  | .pending => .pending
  | .done ((_, some err), d1, h1) => .done (some err, d1, h1)
  | .done ((machine, none), d1, h1) =>
    match getClient R d1 with
    | (none, _) => .panic
    | (some c, d2) => .done (R.Delete h1 c machine, d2, h1 ++ [Call.Delete machine])

/-- The method `Restart`. -/
def Restart (R : Remote) (d : Driver) (h : List Call) : Run (Option Err × Driver × List Call) :=
  match getMachine R d h with
  | .panic => .panic
  | .pending => .pending
  | .done ((_, some err), d1, h1) => .done (some err, d1, h1)
  | .done ((machine, none), d1, h1) =>
    match getClient R d1 with
    | (none, _) => .panic
    | (some c, d2) =>
      .done ((R.ActionRestart h1 c machine).2, d2, h1 ++ [Call.ActionRestart machine])

/-- The method `Kill`. -/
def Kill (R : Remote) (d : Driver) (h : List Call) : Run (Option Err × Driver × List Call) :=
  Stop R d h

/-! ## The legacy driver (`rancher.go` at the repository root) -/

namespace Legacy

/-- The `Driver` struct of the legacy file. -/
structure Driver where
  MachineName : String := ""
  StorePath : String := ""
  Url : String := ""
  AccessKey : String := ""
  SecretKey : String := ""
  OsImage : String := ""
  MemoryMb : Int := 0
  Vcpu : Int := 0
  client : Option RancherClient := none
  MachineId : String := ""
  IPAddress : String := ""
deriving DecidableEq, Repr

/-- The method `SetConfigFromFlags` of the legacy driver. -/
def SetConfigFromFlags (d : Driver) (flags : drivers.DriverOptions) : Option Err × Driver :=
  let d1 : Driver :=
    { d with
      Url := flags.StringOpt "rancher-url"
      AccessKey := flags.StringOpt "rancher-access-key"
      SecretKey := flags.StringOpt "rancher-secret-key"
      OsImage := flags.StringOpt "rancher-os-image"
      MemoryMb := flags.IntOpt "rancher-memory-mb"
      Vcpu := flags.IntOpt "rancher-vcpu" }
  if d1.Url = "" then
    (some "Rancher driver requires the --rancher-url option", d1)
  else if d1.AccessKey = "" then
    (some "Rancher driver requires the --rancher-access-key option", d1)
  else if d1.SecretKey = "" then
    (some "Rancher driver requires the --rancher-secret-key option", d1)
  else
    (none, d1)

end Legacy

/-! ## Sample collaborators -/

/-- A driver with a cached machine id and IP. -/
def sampleDriver : Driver :=
  { MachineName := "vm1", Url := "https://rancher.example/v1", AccessKey := "AK",
    SecretKey := "SK", OsImage := "rancher/vm-ubuntu", MemoryMb := 2048, Vcpu := 4,
    MachineId := "1i7", IPAddress := "203.0.113.5" }

/-- A remote whose machines carry the given status and IP and whose requests all succeed. -/
def steadyRemote (status ip : String) : Remote where
  NewRancherClient := fun opts => (some ⟨opts⟩, none)
  ProjectById := fun _ _ id => (some { Id := id }, none)
  ProjectList := fun _ _ _ => (some [], none)
  VirtualMachineCreate := fun _ _ req => (some { req with Id := "1i7" }, none)
  VirtualMachineById := fun _ _ id => (some { Id := id, State := status, PrimaryIpAddress := ip }, none)
  ActionStart := fun _ _ m => (m, none)
  ActionStop := fun _ _ m _ => (m, none)
  ActionRestart := fun _ _ m => (m, none)
  Delete := fun _ _ _ => none

/-- A remote on which every fetch of a VM by id fails with the given error. -/
def failingRemote (e : Err) : Remote :=
  { steadyRemote "running" "10.0.0.9" with VirtualMachineById := fun _ _ _ => (none, some e) }

/-- An option set giving the three connection options and the two sizing options. -/
def optionsOf (url accessKey secretKey : String) (memoryMb vcpu : Int) : drivers.DriverOptions where
  StringOpt := fun name =>
    if name = "rancher-url" then url
    else if name = "rancher-access-key" then accessKey
    else if name = "rancher-secret-key" then secretKey
    else if name = "rancher-os-image" then defaultOsImage
    else if name = "rancher-os-user" then defaultOsUser
    else ""
  IntOpt := fun name =>
    if name = "rancher-memory-mb" then memoryMb
    else if name = "rancher-vcpu" then vcpu
    else 0

/-- A remote whose project listings answer the given projects. -/
def projectRemote (ps : List Project) : Remote :=
  { steadyRemote "running" "10.0.0.9" with ProjectList := fun _ _ _ => (some ps, none) }

/-- A remote on which a created machine is first creating, then updating-running with its
IP, and running from the fourth fetch on. -/
def bootingRemote : Remote :=
  { steadyRemote "running" "10.0.0.9" with
    VirtualMachineById := fun h _ id =>
      if h.length < 3 then (some { Id := id, State := "creating" }, none)
      else if h.length < 4 then
        (some { Id := id, State := "updating-running", PrimaryIpAddress := "10.0.0.9" }, none)
      else (some { Id := id, State := "running", PrimaryIpAddress := "10.0.0.9" }, none) }

/-- A host whose key generation succeeds and whose public key file ends in a newline. -/
def sampleHost : Host where
  SSHKeyPath := "/store/id_rsa"
  GenerateSSHKey := fun _ => none
  ReadFile := fun path =>
    if path = "/store/id_rsa.pub" then ("ssh-rsa AAAA \n", none) else ("", some "no such file")

/-- A project with a self link. -/
def sampleProject : Project :=
  { Id := "1a5", Name := "Default", Links := [("self", "https://rancher.example/v1/projects/1a5")] }

/-- The sample driver before any machine was created. -/
def freshDriver : Driver :=
  { sampleDriver with MachineId := "", IPAddress := "" }

/-- The fresh driver once its client handle has been built. -/
def freshDriverConnected : Driver :=
  { freshDriver with client := some ⟨⟨"https://rancher.example/v1", "AK", "SK"⟩⟩ }

/-- The sample driver once its client handle has been built. -/
def sampleDriverConnected : Driver :=
  { sampleDriver with client := some ⟨⟨"https://rancher.example/v1", "AK", "SK"⟩⟩ }

/-! ## Shared lemmas -/

theorem getClient_some {R : Remote} {d d1 : Driver} {c : RancherClient}
    (hc : getClient R d = (some c, d1)) : d1 = { d with client := some c } := by
  unfold getClient at hc
  split at hc
  · next c0 h0 =>
    simp only [Prod.mk.injEq, Option.some.injEq] at hc
    obtain ⟨rfl, rfl⟩ := hc
    cases d
    simp_all
  · split at hc
    · simp at hc
    · simp only [Prod.mk.injEq] at hc
      obtain ⟨rfl, rfl⟩ := hc
      rfl

theorem getClient_cached {R : Remote} {d d1 : Driver} {c : RancherClient}
    (hc : getClient R d = (some c, d1)) : getClient R d1 = (some c, d1) := by
  have h1 := getClient_some hc
  subst h1
  simp [getClient]

theorem getMachine_done {R : Remote} {d d1 : Driver} {h h1 : List Call}
    {r : GoRes VirtualMachine} (hf : getMachine R d h = .done (r, d1, h1)) :
    ∃ c, getClient R d = (some c, d1) ∧ r = R.VirtualMachineById h c d.MachineId ∧
      h1 = h ++ [Call.VirtualMachineById d.MachineId] := by
  unfold getMachine at hf
  split at hf
  · simp at hf
  · next c d2 hc =>
    have h2 := getClient_some hc
    simp only [Run.done.injEq, Prod.mk.injEq] at hf
    obtain ⟨rfl, rfl, rfl⟩ := hf
    refine ⟨c, hc, ?_, ?_⟩ <;> simp [h2]

/-! ## Claims -/

/-- C1: `GetState` is determined by the fetch of the VM by id. A failed fetch with error `e`
gives `(Error, e)`. A successful fetch with status `s` gives a nil error and Starting for
creating, migrating, requested, restarting, restoring, starting; Error for error, erroring,
purged, purging, removed, removing; Running for running, updating-running; Stopped for
stopped, updating-stopped; Stopping for stopping; and `state.None` for every other string. -/
theorem GetState_determined_by_fetch (R : Remote) (d : Driver) (h : List Call) :
    (∀ m e d1 h1, getMachine R d h = .done ((m, some e), d1, h1) →
      GetState R d h = .done ((state.State.Error, some e), d1, h1)) ∧
    (∀ vm d1 h1, getMachine R d h = .done ((some vm, none), d1, h1) →
      ∃ st, GetState R d h = .done ((st, none), d1, h1) ∧
        (vm.State ∈ ["creating", "migrating", "requested", "restarting", "restoring",
            "starting"] → st = state.State.Starting) ∧
        (vm.State ∈ ["error", "erroring", "purged", "purging", "removed", "removing"] →
          st = state.State.Error) ∧
        (vm.State ∈ ["running", "updating-running"] → st = state.State.Running) ∧
        (vm.State ∈ ["stopped", "updating-stopped"] → st = state.State.Stopped) ∧
        (vm.State = "stopping" → st = state.State.Stopping) ∧
        (vm.State ∉ ["creating", "migrating", "requested", "restarting", "restoring",
            "starting", "error", "erroring", "purged", "purging", "removed", "removing",
            "running", "updating-running", "stopped", "updating-stopped", "stopping"] →
          st = state.State.None)) := by
  constructor
  · intro m e d1 h1 hf
    simp [GetState, hf]
  · intro vm d1 h1 hf
    simp only [GetState, hf]
    split_ifs with c1 c2 c3 c4 c5
    all_goals refine ⟨_, rfl, ?_⟩
    all_goals simp only [List.mem_cons, List.mem_singleton, List.not_mem_nil, or_false,
      not_or] at *
    · rcases c1 with e | e | e | e | e | e <;> simp [e]
    · rcases c2 with e | e | e | e | e | e <;> simp [e]
    · rcases c3 with e | e <;> simp [e]
    · rcases c4 with e | e <;> simp [e]
    · simp [c5]
    · simp_all

/-- Witness for C1: a fetch answering updating-running is reported as Running. -/
theorem GetState_determined_by_fetch_witness :
    getMachine (steadyRemote "updating-running" "10.0.0.9") sampleDriver [] =
      .done ((some { Id := "1i7", State := "updating-running", PrimaryIpAddress := "10.0.0.9" },
        none), sampleDriverConnected, [Call.VirtualMachineById "1i7"]) ∧
    GetState (steadyRemote "updating-running" "10.0.0.9") sampleDriver [] =
      .done ((state.State.Running, none), sampleDriverConnected,
        [Call.VirtualMachineById "1i7"]) := by
  have hf : getMachine (steadyRemote "updating-running" "10.0.0.9") sampleDriver [] =
      .done ((some { Id := "1i7", State := "updating-running", PrimaryIpAddress := "10.0.0.9" },
        none), sampleDriverConnected, [Call.VirtualMachineById "1i7"]) := rfl
  obtain ⟨st, hst, -, -, hrun, -⟩ :=
    (GetState_determined_by_fetch (steadyRemote "updating-running" "10.0.0.9") sampleDriver []).2
      _ _ _ hf
  rw [hrun (by simp)] at hst
  exact ⟨hf, hst⟩

theorem GetState_done {R : Remote} {d d1 : Driver} {h h1 : List Call}
    {r : state.State × Option Err} (hs : GetState R d h = .done (r, d1, h1)) :
    ∃ f, getMachine R d h = .done (f, d1, h1) := by
  unfold GetState at hs
  split at hs
  · simp at hs
  · simp at hs
  · next x e d2 h2 hf =>
    simp only [Run.done.injEq, Prod.mk.injEq] at hs
    obtain ⟨-, rfl, rfl⟩ := hs
    exact ⟨_, hf⟩
  · simp at hs
  · next m d2 h2 hf =>
    split_ifs at hs
    all_goals simp only [Run.done.injEq, Prod.mk.injEq] at hs
    all_goals obtain ⟨-, rfl, rfl⟩ := hs
    all_goals exact ⟨_, hf⟩

theorem getMachine_fields {R : Remote} {d d1 : Driver} {h h1 : List Call}
    {f : GoRes VirtualMachine} (hf : getMachine R d h = .done (f, d1, h1)) :
    ∃ c, d1 = { d with client := some c } := by
  obtain ⟨c, hc, -, -⟩ := getMachine_done hf
  exact ⟨c, getClient_some hc⟩

/-- C7: `GetIP` fails exactly when the cached IP is empty or the literal "0"; otherwise it
returns the cached IP with a nil error; the driver is left unchanged in both cases. -/
theorem GetIP_error_iff (d : Driver) :
    ((GetIP d).1.2 ≠ none ↔ (d.IPAddress = "" ∨ d.IPAddress = "0")) ∧
    (¬ (d.IPAddress = "" ∨ d.IPAddress = "0") → (GetIP d).1 = (d.IPAddress, none)) ∧
    (GetIP d).2 = d := by
  unfold GetIP
  split_ifs with hc <;> simp [hc]

/-- Witness for C7: a cached IP is returned as it is. -/
theorem GetIP_error_iff_witness : (GetIP sampleDriver).1 = ("203.0.113.5", none) :=
  (GetIP_error_iff sampleDriver).2.1 (by decide)

/-- C6: `GetURL` returns without error only if the fetched status maps to Running, and then
the result is "tcp://" ++ IPAddress ++ ":2376" (for the cached IP 203.0.113.5 it is
tcp://203.0.113.5:2376); when the fetch succeeds and the status maps to another state it
returns the empty string and `drivers.ErrHostIsNotRunning`. -/
theorem GetURL_requires_running (R : Remote) (d : Driver) (h : List Call) :
    (∀ url d1 h1, GetURL R d h = .done ((url, none), d1, h1) →
      GetState R d h = .done ((state.State.Running, none), d1, h1) ∧
      url = "tcp://" ++ d.IPAddress ++ ":2376") ∧
    (∀ st d1 h1, GetState R d h = .done ((st, none), d1, h1) → st ≠ state.State.Running →
      GetURL R d h = .done (("", some drivers.ErrHostIsNotRunning), d1, h1)) ∧
    (∀ d1 h1, GetState R d h = .done ((state.State.Running, none), d1, h1) →
      d.IPAddress = "203.0.113.5" →
      GetURL R d h = .done (("tcp://203.0.113.5:2376", none), d1, h1)) := by
  refine ⟨?_, ?_, ?_⟩
  · intro url d1 h1 hu
    unfold GetURL at hu
    split at hu
    · simp at hu
    · simp at hu
    · simp at hu
    · next s d2 h2 hs =>
      obtain ⟨f, hf⟩ := GetState_done hs
      obtain ⟨c, hd2⟩ := getMachine_fields hf
      split_ifs at hu with hrun
      · simp at hu
      · simp only [ne_eq, not_not] at hrun
        subst hrun
        unfold GetIP at hu
        split_ifs at hu with hip
        · simp at hu
        · simp only [Run.done.injEq, Prod.mk.injEq, and_true, true_and] at hu
          obtain ⟨rfl, rfl, rfl⟩ := hu
          refine ⟨hs, ?_⟩
          simp [hd2]
  · intro st d1 h1 hs hne
    simp [GetURL, hs, hne]
  · intro d1 h1 hs hip
    obtain ⟨f, hf⟩ := GetState_done hs
    obtain ⟨c, hd1⟩ := getMachine_fields hf
    have hip1 : d1.IPAddress = "203.0.113.5" := by simp [hd1, hip]
    simp [GetURL, hs, GetIP, hip1]

/-- Witness for C6: the running sample machine is reached at tcp://203.0.113.5:2376. -/
theorem GetURL_requires_running_witness :
    GetURL (steadyRemote "running" "10.0.0.9") sampleDriver [] =
      .done (("tcp://203.0.113.5:2376", none), sampleDriverConnected,
        [Call.VirtualMachineById "1i7"]) :=
  (GetURL_requires_running (steadyRemote "running" "10.0.0.9") sampleDriver []).2.2
    sampleDriverConnected [Call.VirtualMachineById "1i7"] (by decide) (by decide)

/-- C8: each of `Start`, `Stop`, `Restart`, `Remove` first fetches the VM by the cached id.
When the fetch fails with `e` the method returns `e` and sends nothing else. When the fetch
answers a VM the method sends exactly one request on it (start; stop with the empty
`InstanceStop`; restart; delete) and returns the error of that request unchanged. -/
theorem lifecycle_single_action (R : Remote) (d : Driver) (h : List Call) :
    (∀ m e d1 h1, getMachine R d h = .done ((m, some e), d1, h1) →
      h1 = h ++ [Call.VirtualMachineById d.MachineId] ∧
      Start R d h = .done (some e, d1, h1) ∧ Stop R d h = .done (some e, d1, h1) ∧
      Restart R d h = .done (some e, d1, h1) ∧ Remove R d h = .done (some e, d1, h1)) ∧
    (∀ vm d1 h1, getMachine R d h = .done ((some vm, none), d1, h1) →
      ∃ c, getClient R d = (some c, d1) ∧
        h1 = h ++ [Call.VirtualMachineById d.MachineId] ∧
        Start R d h = .done ((R.ActionStart h1 c (some vm)).2, d1,
          h ++ [Call.VirtualMachineById d.MachineId, Call.ActionStart (some vm)]) ∧
        Stop R d h = .done ((R.ActionStop h1 c (some vm) { Remove := false, Timeout := 0 }).2,
          d1, h ++ [Call.VirtualMachineById d.MachineId,
            Call.ActionStop (some vm) { Remove := false, Timeout := 0 }]) ∧
        Restart R d h = .done ((R.ActionRestart h1 c (some vm)).2, d1,
          h ++ [Call.VirtualMachineById d.MachineId, Call.ActionRestart (some vm)]) ∧
        Remove R d h = .done (R.Delete h1 c (some vm), d1,
          h ++ [Call.VirtualMachineById d.MachineId, Call.Delete (some vm)])) := by
  constructor
  · intro m e d1 h1 hf
    obtain ⟨c, -, -, hh⟩ := getMachine_done hf
    simp [Start, Stop, Restart, Remove, hf, hh]
  · intro vm d1 h1 hf
    obtain ⟨c, hc, -, hh⟩ := getMachine_done hf
    have hc1 := getClient_cached hc
    refine ⟨c, hc, hh, ?_⟩
    simp [Start, Stop, Restart, Remove, hf, hc1, hh]

/-- Witness for C8: on a failing fetch `Stop` returns the fetch error after one request, and
on a successful one `Remove` sends the fetch and one delete. -/
theorem lifecycle_single_action_witness :
    Stop (failingRemote "gone") sampleDriver [] =
      .done (some "gone", sampleDriverConnected, [Call.VirtualMachineById "1i7"]) ∧
    Remove (steadyRemote "stopped" "") sampleDriver [] =
      .done (none, sampleDriverConnected, [Call.VirtualMachineById "1i7",
        Call.Delete (some { Id := "1i7", State := "stopped", PrimaryIpAddress := "" })]) := by
  constructor
  · exact ((lifecycle_single_action (failingRemote "gone") sampleDriver []).1 none "gone"
      sampleDriverConnected [Call.VirtualMachineById "1i7"] rfl).2.2.1
  · obtain ⟨c, hc, -, -, -, -, hrm⟩ :=
      (lifecycle_single_action (steadyRemote "stopped" "") sampleDriver []).2
        { Id := "1i7", State := "stopped", PrimaryIpAddress := "" }
        sampleDriverConnected [Call.VirtualMachineById "1i7"] rfl
    exact hrm

/-- C10, as stated, fails: the remote reports IP 10.0.0.10 and state running, yet after
`GetState` the cached IP is still 203.0.113.5 and `GetIP` answers 203.0.113.5. -/
theorem GetState_refresh_counterexample :
    getMachine (steadyRemote "running" "10.0.0.10") sampleDriver [] =
      .done ((some { Id := "1i7", State := "running", PrimaryIpAddress := "10.0.0.10" }, none),
        sampleDriverConnected, [Call.VirtualMachineById "1i7"]) ∧
    GetState (steadyRemote "running" "10.0.0.10") sampleDriver [] =
      .done ((state.State.Running, none), sampleDriverConnected,
        [Call.VirtualMachineById "1i7"]) ∧
    sampleDriverConnected.IPAddress ≠ "10.0.0.10" ∧
    (GetIP sampleDriverConnected).1 = ("203.0.113.5", none) := by
  refine ⟨rfl, by decide, by decide, by decide⟩

/-- C10, amended: `GetState` never writes the cached VM fields. Whenever it returns, the
driver differs from the one before the call at most in the client handle, so the cached
`IPAddress` and `MachineId` are the ones held before, whatever the fetched VM carries, and
a following `GetIP` answers as it would have before the call. -/
theorem GetState_keeps_cached_fields (R : Remote) (d : Driver) (h : List Call)
    (r : state.State × Option Err) (d1 : Driver) (h1 : List Call)
    (hs : GetState R d h = .done (r, d1, h1)) :
    d1 = { d with client := d1.client } ∧ d1.IPAddress = d.IPAddress ∧
      d1.MachineId = d.MachineId ∧ (GetIP d1).1 = (GetIP d).1 := by
  obtain ⟨f, hf⟩ := GetState_done hs
  obtain ⟨c, hd1⟩ := getMachine_fields hf
  subst hd1
  refine ⟨rfl, rfl, rfl, ?_⟩
  simp only [GetIP]
  split_ifs <;> rfl

/-- Witness for C10 amended: the cached IP survives a state query against a remote that
reports another IP. -/
theorem GetState_keeps_cached_fields_witness :
    sampleDriverConnected.IPAddress = sampleDriver.IPAddress :=
  (GetState_keeps_cached_fields (steadyRemote "running" "10.0.0.10") sampleDriver []
    (state.State.Running, none) sampleDriverConnected [Call.VirtualMachineById "1i7"]
    (by decide)).2.1

/-- C2, evaluated: with a URL and an empty access key, or with an empty secret key, the
registered driver accepts the options (nil error), whereas the legacy driver at the
repository root rejects them with the error naming the missing option. -/
theorem SetConfigFromFlags_accepts_empty_keys :
    (SetConfigFromFlags (NewDriver "" "")
      (optionsOf "https://rancher.example/v1" "" "SK" 2048 4)).1 = none ∧
    (SetConfigFromFlags (NewDriver "" "")
      (optionsOf "https://rancher.example/v1" "AK" "" 2048 4)).1 = none ∧
    (SetConfigFromFlags (NewDriver "" "") (optionsOf "" "AK" "SK" 2048 4)).1 =
      some "Rancher driver requires the --rancher-url option" ∧
    (Legacy.SetConfigFromFlags {} (optionsOf "https://rancher.example/v1" "" "SK" 2048 4)).1 =
      some "Rancher driver requires the --rancher-access-key option" ∧
    (Legacy.SetConfigFromFlags {} (optionsOf "https://rancher.example/v1" "AK" "" 2048 4)).1 =
      some "Rancher driver requires the --rancher-secret-key option" := by
  refine ⟨by decide, by decide, by decide, by decide, by decide⟩

/-- C9, as stated, fails: with memory 0 and vcpu -3 the options are accepted and the driver
holds `MemoryMb = 0` and `Vcpu = -3`, not the defaults 1024 and 2. -/
theorem SetConfigFromFlags_sizing_counterexample :
    (SetConfigFromFlags (NewDriver "" "")
      (optionsOf "https://rancher.example/v1" "AK" "SK" 0 (-3))).1 = none ∧
    (SetConfigFromFlags (NewDriver "" "")
      (optionsOf "https://rancher.example/v1" "AK" "SK" 0 (-3))).2.MemoryMb = 0 ∧
    (SetConfigFromFlags (NewDriver "" "")
      (optionsOf "https://rancher.example/v1" "AK" "SK" 0 (-3))).2.Vcpu = -3 := by
  refine ⟨by decide, by decide, by decide⟩

/-- C9, amended: `SetConfigFromFlags` copies the sizing options without any fallback:
afterwards `MemoryMb` is the supplied rancher-memory-mb value and `Vcpu` the supplied
rancher-vcpu value, so they are positive exactly when the supplied values are. The defaults
1024 and 2 are the default values the flag table declares for the two options and the
values `NewDriver` starts from. -/
theorem SetConfigFromFlags_sizing (d : Driver) (flags : drivers.DriverOptions) :
    (SetConfigFromFlags d flags).2.MemoryMb = flags.IntOpt "rancher-memory-mb" ∧
    (SetConfigFromFlags d flags).2.Vcpu = flags.IntOpt "rancher-vcpu" ∧
    (0 < (SetConfigFromFlags d flags).2.MemoryMb ↔ 0 < flags.IntOpt "rancher-memory-mb") ∧
    (0 < (SetConfigFromFlags d flags).2.Vcpu ↔ 0 < flags.IntOpt "rancher-vcpu") ∧
    GetCreateFlags.filterMap (fun f =>
      match f with
      | .IntFlag _ name _ value => some (name, value)
      | .StringFlag _ _ _ _ => none) = [("rancher-memory-mb", 1024), ("rancher-vcpu", 2)] ∧
    (NewDriver d.MachineName d.StorePath).MemoryMb = 1024 ∧
    (NewDriver d.MachineName d.StorePath).Vcpu = 2 := by
  have hm : (SetConfigFromFlags d flags).2.MemoryMb = flags.IntOpt "rancher-memory-mb" := by
    simp only [SetConfigFromFlags]
    split_ifs <;> rfl
  have hv : (SetConfigFromFlags d flags).2.Vcpu = flags.IntOpt "rancher-vcpu" := by
    simp only [SetConfigFromFlags]
    split_ifs <;> rfl
  refine ⟨hm, hv, by rw [hm], by rw [hv], ?_, rfl, rfl⟩
  simp [GetCreateFlags, defaultMemoryMb, defaultVcpu]

/-- The ambiguity errors of `selectProject` name an option `rancher-environment-id`, but the
flag table declares the project id under the name `rancher-project-id`. -/
theorem GetCreateFlags_names :
    GetCreateFlags.map (fun f =>
      match f with
      | .StringFlag _ name _ _ => name
      | .IntFlag _ name _ _ => name) =
      ["rancher-url", "rancher-access-key", "rancher-secret-key", "rancher-project-name",
        "rancher-project-id", "rancher-os-image", "rancher-os-user", "rancher-memory-mb",
        "rancher-vcpu"] := by
  simp [GetCreateFlags]

/-- C3: for a driver with an empty project id, with or without a project name, when the
limit-2 listing answers `ps`: with no project `PreCreateCheck` returns the no-environment
error, with more than one it returns the ambiguity error asking for an id, and in both cases
`Url` is unchanged; with exactly one project `p` it returns nil, `Url` is the value stored
under the key self in the links of `p` (the empty string when the links hold no such key),
every other field but the handle is as before, the cached handle is nil, and the next
`getClient` builds the handle from the new `Url`. -/
theorem PreCreateCheck_selection (R : Remote) (d d1 : Driver) (h : List Call)
    (c : RancherClient) (ps : List Project) (opts : ListOpts)
    (hid : d.ProjectId = "")
    (hopts : opts = if d.ProjectName ≠ "" then
        ⟨[("name", d.ProjectName), ("state_ne", "removed"), ("limit", "2")]⟩
      else ⟨[("state_ne", "removed"), ("limit", "2")]⟩)
    (hc : getClient R d = (some c, d1))
    (hl : R.ProjectList h c opts = (some ps, none)) :
    (ps.length = 0 →
      PreCreateCheck R d h = .done (some (if d.ProjectName ≠ "" then
          "No Environment named \x27" ++ d.ProjectName ++ "\x27 was found, check URL and API key"
        else "No Environments found, check URL and API key"), d1,
        h ++ [Call.ProjectList opts]) ∧ d1.Url = d.Url) ∧
    (ps.length > 1 →
      PreCreateCheck R d h = .done (some (if d.ProjectName ≠ "" then
          "There is more than one Environment named \x27" ++ d.ProjectName
            ++ "\x27, use --rancher-environment-id to choose one"
        else
          "The supplied API Key has access to more than one Environment, use --rancher-environment-id to choose one"),
        d1, h ++ [Call.ProjectList opts]) ∧ d1.Url = d.Url) ∧
    (ps.length = 1 → ∃ p d2, ps = [p] ∧
      PreCreateCheck R d h = .done (none, d2, h ++ [Call.ProjectList opts]) ∧
      d2 = { d with client := none, Url := d2.Url } ∧
      (∀ u, p.Links.lookup "self" = some u → d2.Url = u) ∧
      (p.Links.lookup "self" = none → d2.Url = "") ∧
      d2.Url = mapGet p.Links "self" ∧ d2.client = none ∧
      ∀ c2, R.NewRancherClient ⟨d2.Url, d.AccessKey, d.SecretKey⟩ = (c2, none) →
        getClient R d2 = (c2, { d2 with client := c2 })) := by
  have hd1 := getClient_some hc
  have hid1 : d1.ProjectId = "" := by simp [hd1, hid]
  have hname : d1.ProjectName = d.ProjectName := by simp [hd1]
  have hurl : d1.Url = d.Url := by simp [hd1]
  have hone : ∀ p : Project,
      PreCreateCheck R d h = .done (none,
        { d1 with client := none, Url := mapGet p.Links "self" },
        h ++ [Call.ProjectList opts]) →
      ∃ q d2, [p] = [q] ∧
        PreCreateCheck R d h = .done (none, d2, h ++ [Call.ProjectList opts]) ∧
        d2 = { d with client := none, Url := d2.Url } ∧
        (∀ u, q.Links.lookup "self" = some u → d2.Url = u) ∧
        (q.Links.lookup "self" = none → d2.Url = "") ∧
        d2.Url = mapGet q.Links "self" ∧ d2.client = none ∧
        ∀ c2, R.NewRancherClient ⟨d2.Url, d.AccessKey, d.SecretKey⟩ = (c2, none) →
          getClient R d2 = (c2, { d2 with client := c2 }) := by
    intro p hp
    refine ⟨p, { d1 with client := none, Url := mapGet p.Links "self" }, rfl, hp, ?_,
      ?_, ?_, rfl, rfl, ?_⟩
    · simp [hd1]
    · intro u hu
      simp [mapGet, hu]
    · intro hu
      simp [mapGet, hu]
    · intro c2 hc2
      simp only [hd1] at hc2 ⊢
      simp only [getClient, hc2]
  refine ⟨?_, ?_, ?_⟩
  · intro h0
    by_cases hn : d.ProjectName = ""
    · simp only [hn, ne_eq, not_true_eq_false, if_false] at hopts ⊢
      subst hopts
      simp [PreCreateCheck, selectProject, hc, hid1, hname, hn, hl, h0, hurl]
    · simp only [hn, ne_eq, not_false_eq_true, if_true] at hopts ⊢
      subst hopts
      simp [PreCreateCheck, selectProject, hc, hid1, hname, hn, hl, h0, hurl]
  · intro h2
    by_cases hn : d.ProjectName = ""
    · simp only [hn, ne_eq, not_true_eq_false, if_false] at hopts ⊢
      subst hopts
      simp [PreCreateCheck, selectProject, hc, hid1, hname, hn, hl, h2, hurl]
    · simp only [hn, ne_eq, not_false_eq_true, if_true] at hopts ⊢
      subst hopts
      simp [PreCreateCheck, selectProject, hc, hid1, hname, hn, hl, h2, hurl]
  · intro h1
    obtain ⟨p, rfl⟩ := List.length_eq_one.mp h1
    apply hone p
    by_cases hn : d.ProjectName = ""
    · simp only [hn, ne_eq, not_true_eq_false, if_false] at hopts
      subst hopts
      simp [PreCreateCheck, selectProject, hc, hid1, hname, hn, hl]
    · simp only [hn, ne_eq, not_false_eq_true, if_true] at hopts
      subst hopts
      simp [PreCreateCheck, selectProject, hc, hid1, hname, hn, hl]

/-- Witness for C3: with the one visible sample project `PreCreateCheck` returns nil and
leaves the sample driver with the URL https://rancher.example/v1/projects/1a5 and no
handle, after the one unfiltered listing. -/
theorem PreCreateCheck_selection_witness :
    PreCreateCheck (projectRemote [sampleProject]) sampleDriver [] =
      .done (none,
        { sampleDriver with client := none, Url := "https://rancher.example/v1/projects/1a5" },
        [Call.ProjectList ⟨[("state_ne", "removed"), ("limit", "2")]⟩]) := by
  obtain ⟨p, d2, hp, hrun, hfields, hself, -, -, -, -⟩ :=
    (PreCreateCheck_selection (projectRemote [sampleProject]) sampleDriver sampleDriverConnected
      [] ⟨⟨"https://rancher.example/v1", "AK", "SK"⟩⟩ [sampleProject]
      ⟨[("state_ne", "removed"), ("limit", "2")]⟩ rfl (by decide) rfl rfl).2.2 rfl
  have hp1 : sampleProject = p := by simpa using hp
  subst hp1
  have hu : d2.Url = "https://rancher.example/v1/projects/1a5" := hself _ (by decide)
  rw [hu] at hfields
  rw [hrun, hfields]
  rfl

theorem pollHistory_zero (h0 : List Call) (m : String) : pollHistory h0 m 0 = h0 := by
  simp [pollHistory]

theorem pollHistory_succ (h0 : List Call) (m : String) (j : Nat) :
    pollHistory (h0 ++ [Call.VirtualMachineById m]) m j = pollHistory h0 m (j + 1) := by
  simp [pollHistory, List.replicate_succ]

theorem getMachine_cached {R : Remote} {d : Driver} {c : RancherClient} (h : List Call)
    (hc : d.client = some c) :
    getMachine R d h = .done (R.VirtualMachineById h c d.MachineId, d,
      h ++ [Call.VirtualMachineById d.MachineId]) := by
  simp [getMachine, getClient, hc]

/-- While the answers are successful and not ready, the loop only polls again. -/
theorem CreateLoop_wait (R : Remote) (c : RancherClient) (m : String) (n : Nat) :
    ∀ (k : Nat) (d : Driver) (h : List Call), d.client = some c → d.MachineId = m →
      (∀ j, j < k → ∃ vm, R.VirtualMachineById (pollHistory h m j) c m = (some vm, none) ∧
        ¬ ready vm) →
      ∃ ip, CreateLoop R (k + n) d h =
        CreateLoop R n { d with IPAddress := ip } (pollHistory h m k) := by
  intro k
  induction k with
  | zero =>
    intro d h _ _ _
    refine ⟨d.IPAddress, ?_⟩
    simp [pollHistory_zero]
  | succ k ih =>
    intro d h hc hm hw
    obtain ⟨vm, hvm, hnr⟩ := hw 0 (Nat.succ_pos k)
    rw [pollHistory_zero] at hvm
    have hstep : CreateLoop R (k + 1 + n) d h =
        CreateLoop R (k + n) { d with IPAddress := vm.PrimaryIpAddress }
          (h ++ [Call.VirtualMachineById m]) := by
      have e : k + 1 + n = (k + n) + 1 := by omega
      rw [e]
      unfold ready at hnr
      simp only [CreateLoop, getMachine_cached h hc, hm, hvm]
      rw [if_neg hnr]
    obtain ⟨ip, hip⟩ := ih { d with IPAddress := vm.PrimaryIpAddress }
      (h ++ [Call.VirtualMachineById m]) hc hm (by
        intro j hj
        rw [pollHistory_succ]
        exact hw (j + 1) (Nat.succ_lt_succ hj))
    refine ⟨ip, ?_⟩
    rw [hstep, hip, pollHistory_succ]

/-- A ready answer ends the loop with a nil error and the IP of that answer. -/
theorem CreateLoop_ready (R : Remote) (c : RancherClient) (n : Nat) (d : Driver) (h : List Call)
    (vm : VirtualMachine) (hc : d.client = some c)
    (hvm : R.VirtualMachineById h c d.MachineId = (some vm, none)) (hr : ready vm) :
    CreateLoop R (n + 1) d h = .done (none, { d with IPAddress := vm.PrimaryIpAddress },
      h ++ [Call.VirtualMachineById d.MachineId]) := by
  unfold ready at hr
  simp only [CreateLoop, getMachine_cached h hc, hvm]
  rw [if_pos hr]

/-- A failed fetch ends the loop with the error of that fetch. -/
theorem CreateLoop_fail (R : Remote) (c : RancherClient) (n : Nat) (d : Driver) (h : List Call)
    (x : Option VirtualMachine) (e : Err) (hc : d.client = some c)
    (hx : R.VirtualMachineById h c d.MachineId = (x, some e)) :
    CreateLoop R (n + 1) d h = .done (some e, d, h ++ [Call.VirtualMachineById d.MachineId]) := by
  simp only [CreateLoop, getMachine_cached h hc, hx]

theorem pollHistory_snoc (h0 : List Call) (m : String) (k : Nat) :
    pollHistory h0 m k ++ [Call.VirtualMachineById m] = pollHistory h0 m (k + 1) := by
  simp [pollHistory, List.replicate_succ']

/-- The poll loop from a driver with a cached handle: it waits through the answers that
are not ready, and ends at the first ready answer or failure. -/
theorem CreateLoop_spec (R : Remote) (c : RancherClient) (d : Driver) (h : List Call) (k : Nat)
    (hc : d.client = some c)
    (hwait : ∀ j, j < k → ∃ vm,
      R.VirtualMachineById (pollHistory h d.MachineId j) c d.MachineId = (some vm, none) ∧
        ¬ ready vm) :
    (∀ fuel, fuel ≤ k → CreateLoop R fuel d h = .pending) ∧
    (∀ vm, R.VirtualMachineById (pollHistory h d.MachineId k) c d.MachineId = (some vm, none) →
      ready vm → ∀ fuel, k < fuel →
      CreateLoop R fuel d h = .done (none, { d with IPAddress := vm.PrimaryIpAddress },
        pollHistory h d.MachineId (k + 1))) ∧
    (∀ x e, R.VirtualMachineById (pollHistory h d.MachineId k) c d.MachineId = (x, some e) →
      ∀ fuel, k < fuel →
      ∃ d2, CreateLoop R fuel d h = .done (some e, d2, pollHistory h d.MachineId (k + 1)) ∧
        d2.MachineId = d.MachineId) := by
  refine ⟨?_, ?_, ?_⟩
  · intro fuel hf
    obtain ⟨ip, hip⟩ := CreateLoop_wait R c d.MachineId 0 fuel d h hc rfl
      (fun j hj => hwait j (lt_of_lt_of_le hj hf))
    rw [← Nat.add_zero fuel, hip]
    rfl
  · intro vm hvm hr fuel hf
    obtain ⟨n, rfl⟩ : ∃ n, fuel = k + (n + 1) := ⟨fuel - k - 1, by omega⟩
    obtain ⟨ip, hip⟩ := CreateLoop_wait R c d.MachineId (n + 1) k d h hc rfl hwait
    rw [hip, ← pollHistory_snoc]
    exact CreateLoop_ready R c n { d with IPAddress := ip } (pollHistory h d.MachineId k) vm hc
      hvm hr
  · intro x e hx fuel hf
    obtain ⟨n, rfl⟩ : ∃ n, fuel = k + (n + 1) := ⟨fuel - k - 1, by omega⟩
    obtain ⟨ip, hip⟩ := CreateLoop_wait R c d.MachineId (n + 1) k d h hc rfl hwait
    refine ⟨{ d with IPAddress := ip }, ?_, rfl⟩
    rw [hip, ← pollHistory_snoc]
    exact CreateLoop_fail R c n { d with IPAddress := ip } (pollHistory h d.MachineId k) x e hc hx

theorem Create_enters_loop {R : Remote} {H : Host} {d d1 : Driver} {h : List Call}
    {c : RancherClient} {key : String} {m0 : VirtualMachine}
    (hk : createSSHKey H = (key, none)) (hc : getClient R d = (some c, d1))
    (hcr : R.VirtualMachineCreate h c (createRequest d1 key) = (some m0, none)) (fuel : Nat) :
    Create fuel R H d h = CreateLoop R fuel { d1 with MachineId := m0.Id }
      (h ++ [Call.VirtualMachineCreate (createRequest d1 key)]) := by
  simp [Create, hk, hc, hcr]

/-- C4: after a creation request that answered a machine with id `m`, let the fetches by id
number 0, 1, ... be answered in turn. If the first `k` answers are successful and not ready
(any status other than the literal running, or an empty IP), then `Create` has not returned
after `k` polls; if answer `k` is ready, `Create` returns nil after exactly `k + 1` fetches
with `MachineId = m` and `IPAddress` the IP of that answer; if answer `k` is a failure `e`,
`Create` returns `e` after exactly `k + 1` fetches. -/
theorem Create_polls_until_ready (R : Remote) (H : Host) (d d1 : Driver) (h : List Call)
    (c : RancherClient) (key : String) (m0 : VirtualMachine) (k : Nat)
    (hk : createSSHKey H = (key, none)) (hc : getClient R d = (some c, d1))
    (hcr : R.VirtualMachineCreate h c (createRequest d1 key) = (some m0, none))
    (hwait : ∀ j, j < k → ∃ vm,
      R.VirtualMachineById
        (pollHistory (h ++ [Call.VirtualMachineCreate (createRequest d1 key)]) m0.Id j) c m0.Id =
          (some vm, none) ∧ ¬ ready vm) :
    (∀ fuel, fuel ≤ k → Create fuel R H d h = .pending) ∧
    (∀ vm, R.VirtualMachineById
        (pollHistory (h ++ [Call.VirtualMachineCreate (createRequest d1 key)]) m0.Id k) c m0.Id =
          (some vm, none) → ready vm → ∀ fuel, k < fuel →
      Create fuel R H d h = .done (none,
        { d1 with MachineId := m0.Id, IPAddress := vm.PrimaryIpAddress },
        pollHistory (h ++ [Call.VirtualMachineCreate (createRequest d1 key)]) m0.Id (k + 1))) ∧
    (∀ x e, R.VirtualMachineById
        (pollHistory (h ++ [Call.VirtualMachineCreate (createRequest d1 key)]) m0.Id k) c m0.Id =
          (x, some e) → ∀ fuel, k < fuel →
      ∃ d2, Create fuel R H d h = .done (some e, d2,
        pollHistory (h ++ [Call.VirtualMachineCreate (createRequest d1 key)]) m0.Id (k + 1)) ∧
        d2.MachineId = m0.Id) := by
  have hd1 := getClient_some hc
  have hcl : ({ d1 with MachineId := m0.Id } : Driver).client = some c := by simp [hd1]
  have hloop := CreateLoop_spec R c { d1 with MachineId := m0.Id }
    (h ++ [Call.VirtualMachineCreate (createRequest d1 key)]) k hcl hwait
  simp only [Create_enters_loop hk hc hcr]
  exact hloop

/-- Witness for C4: the machine is creating twice, then updating-running with an IP, then
running; `Create` returns nil after exactly four fetches with the id and IP cached. -/
theorem Create_polls_until_ready_witness :
    Create 10 bootingRemote sampleHost freshDriver [] =
      .done (none, { freshDriverConnected with MachineId := "1i7", IPAddress := "10.0.0.9" },
        pollHistory ([] ++ [Call.VirtualMachineCreate
          (createRequest freshDriverConnected "ssh-rsa AAAA")]) "1i7" (3 + 1)) :=
  (Create_polls_until_ready bootingRemote sampleHost freshDriver freshDriverConnected []
    ⟨⟨"https://rancher.example/v1", "AK", "SK"⟩⟩ "ssh-rsa AAAA"
    { createRequest freshDriverConnected "ssh-rsa AAAA" with Id := "1i7" } 3
    (by decide) rfl rfl
    (fun j hj =>
      match j, hj with
      | 0, _ => ⟨{ Id := "1i7", State := "creating" }, rfl, by decide⟩
      | 1, _ => ⟨{ Id := "1i7", State := "creating" }, rfl, by decide⟩
      | 2, _ => ⟨{ Id := "1i7", State := "updating-running", PrimaryIpAddress := "10.0.0.9" },
          rfl, by decide⟩)).2.1
    { Id := "1i7", State := "running", PrimaryIpAddress := "10.0.0.9" } rfl (by decide) 10
    (by decide)

/-- The poll loop sends nothing but fetches by id. -/
theorem CreateLoop_history (R : Remote) :
    ∀ (fuel : Nat) (d : Driver) (h : List Call) (e : Option Err) (d2 : Driver) (h2 : List Call),
      CreateLoop R fuel d h = .done (e, d2, h2) →
      ∃ tail, h2 = h ++ tail ∧ ∀ x ∈ tail, ∃ id, x = Call.VirtualMachineById id := by
  intro fuel
  induction fuel with
  | zero =>
    intro d h e d2 h2 hl
    simp [CreateLoop] at hl
  | succ fuel ih =>
    intro d h e d2 h2 hl
    unfold CreateLoop at hl
    split at hl
    · simp at hl
    · simp at hl
    · next x err d1 h1 hf =>
      obtain ⟨c, -, -, hh⟩ := getMachine_done hf
      simp only [Run.done.injEq, Prod.mk.injEq] at hl
      obtain ⟨-, -, rfl⟩ := hl
      exact ⟨[Call.VirtualMachineById d.MachineId], hh, by simp⟩
    · simp at hl
    · next machine d1 h1 hf =>
      obtain ⟨c, -, -, hh⟩ := getMachine_done hf
      split_ifs at hl
      · simp only [Run.done.injEq, Prod.mk.injEq] at hl
        obtain ⟨-, -, rfl⟩ := hl
        exact ⟨[Call.VirtualMachineById d.MachineId], hh, by simp⟩
      · obtain ⟨tail, ht, hall⟩ := ih _ _ _ _ _ hl
        refine ⟨Call.VirtualMachineById d.MachineId :: tail, ?_, ?_⟩
        · rw [ht, hh]
          simp
        · intro x hx
          rcases List.mem_cons.mp hx with rfl | hx
          · exact ⟨_, rfl⟩
          · exact hall x hx

/-- The user data splits into four lines when the key holds no newline. -/
theorem userdata_lines (k : String) (hnl : '\n' ∉ k.data) :
    (userdata k).data.splitOn '\n' =
      ["#cloud-config".data, [], "ssh_authorized_keys:".data,
        ("\t- \"" ++ k ++ "\"").data] := by
  have e1 : "#cloud-config\n\nssh_authorized_keys:\n\t- \"".data =
      "#cloud-config".data ++ '\n' :: '\n' :: ("ssh_authorized_keys:".data ++
        '\n' :: "\t- \"".data) := by decide
  have hdata : (userdata k).data = ['\n'].intercalate
      ["#cloud-config".data, [], "ssh_authorized_keys:".data,
        ("\t- \"" ++ k ++ "\"").data] := by
    simp only [userdata, String.data_append, e1, List.intercalate, List.intersperse,
      List.flatten, List.append_assoc, List.cons_append, List.nil_append, List.append_nil,
      List.singleton_append]
  rw [hdata]
  apply List.splitOn_intercalate
  · intro l hl
    simp only [List.mem_cons, List.mem_singleton, List.not_mem_nil, or_false] at hl
    rcases hl with rfl | rfl | rfl | rfl
    · decide
    · decide
    · decide
    · simp only [String.data_append, List.mem_append, not_or]
      exact ⟨⟨by decide, hnl⟩, by decide⟩
  · simp

/-- What `TrimRight` returns does not end in a character of the cutset. -/
theorem TrimRight_last (s cutset : String) (ch : Char)
    (hl : (TrimRight s cutset).data.getLast? = some ch) : ch ∉ cutset.data := by
  have hd := List.head?_dropWhile_not (fun c => decide (c ∈ cutset.data)) s.data.reverse
  simp only [TrimRight, List.getLast?_reverse] at hl
  rw [hl] at hd
  simpa using hd

theorem createSSHKey_trimmed {H : Host} {k : String} (hk : createSSHKey H = (k, none)) :
    k = TrimRight (H.ReadFile (publicSSHKeyPath H)).1 "\r\n\t " := by
  unfold createSSHKey at hk
  split at hk
  · simp at hk
  · split at hk
    · simp at hk
    · next pk hr =>
      simp only [Prod.mk.injEq, and_true] at hk
      rw [hr, ← hk]

/-- C5: for a driver with machine name `n`, image `i`, memory `m`, vcpu `v` and a generated
public key `k` (what `createSSHKey` returns: trimmed of trailing whitespace; assumed to hold
no line break), the one creation request `Create` submits has `Name = n`,
`ImageUuid = "docker:" ++ i`, `MemoryMb = m`, `Vcpu = v`, and a `Userdata` that begins with
the #cloud-config header and whose lines are the header, an empty line, the one
ssh_authorized_keys key line and the one list entry holding `k` in double quotes; every
other request `Create` sends is a fetch by id. For image rancher/vm-ubuntu, memory 2048 and
vcpu 4 the request carries docker:rancher/vm-ubuntu, 2048 and 4. -/
theorem Create_request (R : Remote) (H : Host) (d d1 : Driver) (h : List Call)
    (c : RancherClient) (k : String)
    (hk : createSSHKey H = (k, none)) (hnl : '\n' ∉ k.data ∧ '\r' ∉ k.data)
    (hc : getClient R d = (some c, d1)) :
    (createRequest d1 k).Name = d.MachineName ∧
    (createRequest d1 k).ImageUuid = "docker:" ++ d.OsImage ∧
    (createRequest d1 k).MemoryMb = d.MemoryMb ∧
    (createRequest d1 k).Vcpu = d.Vcpu ∧
    "#cloud-config".data <+: (createRequest d1 k).Userdata.data ∧
    (createRequest d1 k).Userdata.data.splitOn '\n' =
      ["#cloud-config".data, [], "ssh_authorized_keys:".data,
        ("\t- \"" ++ k ++ "\"").data] ∧
    List.count "ssh_authorized_keys:".data
      ((createRequest d1 k).Userdata.data.splitOn '\n') = 1 ∧
    (∀ ch, k.data.getLast? = some ch → ch ∉ "\r\n\t ".data) ∧
    (∀ x e, R.VirtualMachineCreate h c (createRequest d1 k) = (x, some e) → ∀ fuel,
      Create fuel R H d h =
        .done (some e, d1, h ++ [Call.VirtualMachineCreate (createRequest d1 k)])) ∧
    (∀ fuel e d2 h2, Create fuel R H d h = .done (e, d2, h2) →
      ∃ tail, h2 = h ++ Call.VirtualMachineCreate (createRequest d1 k) :: tail ∧
        ∀ x ∈ tail, ∃ id, x = Call.VirtualMachineById id) ∧
    (d.OsImage = "rancher/vm-ubuntu" → d.MemoryMb = 2048 → d.Vcpu = 4 →
      (createRequest d1 k).ImageUuid = "docker:rancher/vm-ubuntu" ∧
      (createRequest d1 k).MemoryMb = 2048 ∧ (createRequest d1 k).Vcpu = 4) := by
  have hd1 := getClient_some hc
  have hlines := userdata_lines k hnl.1
  refine ⟨by simp [createRequest, hd1], by simp [createRequest, hd1],
    by simp [createRequest, hd1], by simp [createRequest, hd1], ?_, hlines, ?_, ?_, ?_, ?_, ?_⟩
  · refine ⟨("\n\nssh_authorized_keys:\n\t- \"" ++ k ++ "\"").data, ?_⟩
    simp [createRequest, userdata]
  · have hne : ("\t- \"" ++ k ++ "\"").data ≠ "ssh_authorized_keys:".data := by
      have e2 : "\t- \"".data = '\t' :: "- \"".data := by decide
      have e3 : "ssh_authorized_keys:".data = 's' :: "sh_authorized_keys:".data := by decide
      simp only [String.data_append, e2, e3, List.cons_append, ne_eq, List.cons.injEq, not_and]
      intro hch
      exact absurd hch (by decide)
    show List.count "ssh_authorized_keys:".data ((userdata k).data.splitOn '\n') = 1
    rw [hlines]
    have h1 : "ssh_authorized_keys:".data ≠ "#cloud-config".data := by decide
    have h2 : "ssh_authorized_keys:".data ≠ [] := by decide
    simp [List.count_cons, h1.symm, h2.symm, hne]
  · intro ch hch
    rw [createSSHKey_trimmed hk] at hch
    exact TrimRight_last _ _ ch hch
  · intro x e hx fuel
    simp [Create, hk, hc, hx]
  · intro fuel e d2 h2 hcr
    unfold Create at hcr
    simp only [hk, hc] at hcr
    split at hcr
    · simp only [Run.done.injEq, Prod.mk.injEq] at hcr
      obtain ⟨-, -, rfl⟩ := hcr
      exact ⟨[], rfl, by simp⟩
    · simp at hcr
    · obtain ⟨tail, ht, hall⟩ := CreateLoop_history R _ _ _ _ _ _ hcr
      exact ⟨tail, by rw [ht]; simp, hall⟩
  · intro hi hm hv
    simp [createRequest, hd1, hi, hm, hv]

/-- Witness for C5: the sample configuration with image rancher/vm-ubuntu, memory 2048
and vcpu 4 and the key read by the sample host. -/
theorem Create_request_witness :
    (createRequest freshDriverConnected "ssh-rsa AAAA").Userdata.data.splitOn '\n' =
      ["#cloud-config".data, [], "ssh_authorized_keys:".data,
        ("\t- \"" ++ "ssh-rsa AAAA" ++ "\"").data] ∧
    (createRequest freshDriverConnected "ssh-rsa AAAA").ImageUuid = "docker:rancher/vm-ubuntu" ∧
    (createRequest freshDriverConnected "ssh-rsa AAAA").MemoryMb = 2048 ∧
    (createRequest freshDriverConnected "ssh-rsa AAAA").Vcpu = 4 :=
  have hall := Create_request bootingRemote sampleHost freshDriver freshDriverConnected []
    ⟨⟨"https://rancher.example/v1", "AK", "SK"⟩⟩ "ssh-rsa AAAA" (by decide)
    ⟨by decide, by decide⟩ rfl
  ⟨hall.2.2.2.2.2.1, hall.2.2.2.2.2.2.2.2.2.2 rfl rfl rfl⟩

end Rancher
